import Mathlib

/-!
# Verification of the TURN relay connection

A shallow embedding of the TURN relay client logic of
src/client/src/webrtc/crates/turn/client/relay_conn.rs.

The async, stateful Rust code is embedded as pure functions with explicit
state passing.  Network effects are made explicit in two ways:

* outcomes of STUN transactions (the observer's perform_transaction) are
  supplied as inputs, either directly or through an oracle indexed by the
  number of transactions performed so far;
* outbound traffic is returned as a list of OutEvent values: a write value
  is a fire-and-forget datagram written with write_to, a transact value is
  a request handed to the transaction engine.

Machine integers are modelled as Nat (no arithmetic in the embedded code
ever overflows: channel numbers stay below 0x8000 and lengths are sizes of
actual buffers).  Supporting modules of the repository that are not part
of the given sources (permission.rs, binding.rs, the stun and proto codec
modules) are modelled from the specification; each such definition carries
a doc comment saying so.
-/

namespace TurnRelay

/-- A peer socket address: IP and port.  Permissions are keyed by the IP
alone, bindings by the full address. -/
structure SocketAddr where
  ip : Nat
  port : Nat
deriving DecidableEq

/-- The error values of the turn crate that relay_conn.rs distinguishes
(crate::webrtc::turn::Error).  All other errors are carried as their
message string by the catch-all constructor, mirroring Error::Other. -/
inductive Error where
  | errTryAgain
  | errUnexpectedResponse
  | errShortBuffer
  | errAlreadyClosed
  | other (msg : String)
deriving DecidableEq

/-- STUN message classes (stun::message). -/
inductive MessageClass where
  | request
  | indication
  | successResponse
  | errorResponse
deriving DecidableEq

/-- The STUN methods relay_conn.rs uses. -/
inductive Method where
  | send
  | createPermission
  | refresh
  | channelBind
deriving DecidableEq

/-- A STUN message type: method plus class (stun::message::MessageType). -/
structure MessageType where
  method : Method
  msgClass : MessageClass
deriving DecidableEq

/-- An inbound STUN message as relay_conn.rs examines it: its type and the
attributes the code reads from it.  ErrorCodeAttribute::get_from,
Nonce::get_from_as and Lifetime::get_from fail when the attribute is
absent, hence the Option fields. -/
structure Message where
  typ : MessageType
  errorCode : Option Nat
  nonceAttr : Option String
  lifetimeAttr : Option Nat
deriving DecidableEq

/-- STUN error code 438 STALE_NONCE (stun::error_code::CODE_STALE_NONCE). -/
def CODE_STALE_NONCE : Nat := 438

/-- The attributes relay_conn.rs places into outbound messages, in build
order.  Modelled from the spec: the codec modules are not part of the
given sources; proto::peeraddr::PeerAddress encodes the XOR-PEER-ADDRESS
attribute, and the username, realm and nonce attributes carry their
strings.  The random transaction id is not modelled. -/
inductive Attr where
  | data (payload : List Nat)
  | xorPeerAddress (addr : SocketAddr)
  | username (s : String)
  | realm (s : String)
  | nonceA (s : String)
  | integrity
  | fingerprint
  | lifetimeA (seconds : Nat)
  | channelNumber (n : Nat)
deriving DecidableEq

/-- An outbound STUN message as built by Message::build: its type and its
attribute list in build order. -/
structure BuiltMsg where
  method : Method
  msgClass : MessageClass
  attrs : List Attr
deriving DecidableEq

/-- An outbound datagram: either a STUN-framed message or a ChannelData
frame (channel number plus payload). -/
inductive Wire where
  | stun (m : BuiltMsg)
  | chanData (number : Nat) (payload : List Nat)
deriving DecidableEq

/-- One observable outbound action: a fire-and-forget write_to of a frame,
or a perform_transaction of a request with its ignore_result flag. -/
inductive OutEvent where
  | write (frame : Wire)
  | transact (msg : BuiltMsg) (ignoreResult : Bool)
deriving DecidableEq

/-! ## Inbound path: recv_from (relay_conn.rs lines 88-109) -/

/-- One inbound datagram queued for recv_from (struct InboundData). -/
structure InboundData where
  data : List Nat
  from_ : SocketAddr
deriving DecidableEq

/-- p[..n].copy_from_slice(&ib_data.data): the first data.length bytes of
the buffer are overwritten, the rest of the buffer is unchanged. -/
def copyInto (p : List Nat) (d : List Nat) : List Nat :=
  d ++ p.drop d.length

/-- RelayConn::recv_from.  The receive queue is the mpsc channel's queued
contents; closed says whether the sender side has been dropped.  The
result is none when the call would block (empty queue, sender alive), and
otherwise carries the returned value, the buffer contents after the call,
and the queue after the call.  Note that read_ch_rx.recv() pops the
datagram from the queue before the buffer length is checked. -/
def recv_from (queue : List InboundData) (closed : Bool) (p : List Nat) :
    Option (Except Error (Nat × SocketAddr) × List Nat × List InboundData) :=
  match queue with
  | ib :: rest =>
    let n := ib.data.length
    if p.length < n then
      some (Except.error Error.errShortBuffer, p, rest)
    else
      some (Except.ok (n, ib.from_), copyInto p ib.data, rest)
  | [] =>
    if closed then
      some (Except.error Error.errAlreadyClosed, p, [])
    else
      none

/-! ## Connection state and the response-processing helpers -/

/-- The mutable fields of RelayConnInternal that the embedded functions
read or write: the authentication nonce and the allocation lifetime (in
seconds).  The username, realm and integrity key are immutable and are
modelled as fixed strings inside the built messages. -/
structure ConnState where
  nonce : String
  lifetime : Nat
deriving DecidableEq

/-- The username the observer reports (obs.username()); opaque here. -/
def theUsername : String := "user"

/-- The realm the observer reports (obs.realm()); opaque here. -/
def theRealm : String := "realm"

/-- RelayConnInternal::set_nonce_from_msg: adopt the NONCE attribute of
the response when present, keep the old nonce otherwise. -/
def set_nonce_from_msg (st : ConnState) (msg : Message) : ConnState :=
  match msg.nonceAttr with
  | some n => { st with nonce := n }
  | none => st

/-- The CreatePermission request built by create_permissions (lines
341-361): an XOR-PEER-ADDRESS per target address, then username, realm,
nonce, message integrity and fingerprint. -/
def createPermissionMsg (addrs : List SocketAddr) (nonce : String) : BuiltMsg :=
  { method := Method.createPermission
    msgClass := MessageClass.request
    attrs := addrs.map Attr.xorPeerAddress ++
      [Attr.username theUsername, Attr.realm theRealm, Attr.nonceA nonce,
        Attr.integrity, Attr.fingerprint] }

/-- RelayConnInternal::create_permissions (lines 339-388).  The outcome of
perform_transaction is an input; the returned events record the request
handed to the transaction engine (ignore_result = false).  An error
response with ErrorCode 438 updates the nonce from the response and yields
ErrTryAgain; any other error response, or a missing ErrorCode attribute,
yields an Error::Other carrying a description of the response. -/
def create_permissions (st : ConnState) (addrs : List SocketAddr)
    (outcome : Except Error Message) :
    ConnState × Except Error Unit × List OutEvent :=
  let evs := [OutEvent.transact (createPermissionMsg addrs st.nonce) false]
  match outcome with
  | Except.error e => (st, Except.error e, evs)
  | Except.ok res =>
    if res.typ.msgClass = MessageClass.errorResponse then
      match res.errorCode with
      | none => (st, Except.error (Error.other "error response without code"), evs)
      | some c =>
        if c = CODE_STALE_NONCE then
          (set_nonce_from_msg st res, Except.error Error.errTryAgain, evs)
        else
          (st, Except.error (Error.other "error response"), evs)
    else
      (st, Except.ok (), evs)

/-- The Refresh request built by refresh_allocation (lines 416-426):
lifetime, username, realm, nonce, message integrity and fingerprint. -/
def refreshMsg (lifetime : Nat) (nonce : String) : BuiltMsg :=
  { method := Method.refresh
    msgClass := MessageClass.request
    attrs := [Attr.lifetimeA lifetime, Attr.username theUsername,
      Attr.realm theRealm, Attr.nonceA nonce, Attr.integrity,
      Attr.fingerprint] }

/-- RelayConnInternal::refresh_allocation (lines 408-464).  When dont_wait
is set, the function returns Ok directly after perform_transaction, never
looking at a response.  Otherwise a success response's Lifetime attribute
becomes the new lifetime; a 438 error response updates the nonce and
yields ErrTryAgain; any other error response is swallowed (Ok). -/
def refresh_allocation (st : ConnState) (lifetime : Nat) (dont_wait : Bool)
    (outcome : Except Error Message) :
    ConnState × Except Error Unit × List OutEvent :=
  let evs := [OutEvent.transact (refreshMsg lifetime st.nonce) dont_wait]
  match outcome with
  | Except.error e => (st, Except.error e, evs)
  | Except.ok res =>
    if dont_wait then
      (st, Except.ok (), evs)
    else if res.typ.msgClass = MessageClass.errorResponse then
      match res.errorCode with
      | none => (st, Except.error (Error.other "error response without code"), evs)
      | some c =>
        if c = CODE_STALE_NONCE then
          (set_nonce_from_msg st res, Except.error Error.errTryAgain, evs)
        else
          (st, Except.ok (), evs)
    else
      match res.lifetimeAttr with
      | none => (st, Except.error (Error.other "lifetime attribute missing"), evs)
      | some l => ({ st with lifetime := l }, Except.ok (), evs)

/-- RelayConnInternal::close (lines 401-406): refresh_allocation with
lifetime 0 and dont_wait = true. -/
def closeInternal (st : ConnState) (outcome : Except Error Message) :
    ConnState × Except Error Unit × List OutEvent :=
  refresh_allocation st 0 true outcome

/-- RelayConn::close (lines 139-149): stops the two timers, runs the
internal close and discards its result.  RelayConnInternal holds no
closed flag, so every call runs refresh_allocation again. -/
def close (st : ConnState) (outcome : Except Error Message) :
    ConnState × List OutEvent :=
  let r := closeInternal st outcome
  (r.1, r.2.2)

/-- Two successive calls of RelayConn::close, with the outbound events of
both concatenated in order. -/
def closeTwice (st : ConnState) (o1 o2 : Except Error Message) :
    ConnState × List OutEvent :=
  let r1 := close st o1
  let r2 := close r1.1 o2
  (r2.1, r1.2 ++ r2.2)

/-- Whether an outbound event is the close-time Refresh(lifetime = 0)
indication: a Refresh request with Lifetime attribute 0 handed to the
transaction engine in fire-and-forget mode. -/
def isRefreshZero (nonce : String) (ev : OutEvent) : Bool :=
  ev = OutEvent.transact (refreshMsg 0 nonce) true

/-! ## Permission map and the permission gate of send_to -/

/-- Permission states (permission.rs, not in the given sources).
Modelled from the spec: state is Idle or Permitted. -/
inductive PermState where
  | idle
  | permitted
deriving DecidableEq

/-- Modelled from the spec: permission.rs is not in the given sources.
The PermissionMap is keyed by the remote IP only, one entry per IP; the
entries are shared (Arc) between the map and the send_to call that looked
them up, so an update through either side is visible through the other
while the entry stays in the map. -/
abbrev PermissionMap : Type := List (Nat × PermState)

/-- PermissionMap::find, keyed by addr.ip (modelled from the spec). -/
def PermissionMap.find : PermissionMap → SocketAddr → Option PermState
  | [], _ => none
  | (ip, st) :: rest, addr =>
    if ip = addr.ip then some st else PermissionMap.find rest addr

/-- PermissionMap::insert, keyed by addr.ip (modelled from the spec). -/
def PermissionMap.insert (m : PermissionMap) (addr : SocketAddr)
    (st : PermState) : PermissionMap :=
  (addr.ip, st) :: m

/-- PermissionMap::delete, keyed by addr.ip (modelled from the spec). -/
def PermissionMap.delete (m : PermissionMap) (addr : SocketAddr) :
    PermissionMap :=
  m.filter (fun e => decide (e.1 ≠ addr.ip))

/-- Mutating the shared Permission entry (perm.set_state): the map shows
the new state wherever it still holds the entry for that IP. -/
def PermissionMap.setState : PermissionMap → SocketAddr → PermState →
    PermissionMap
  | [], _, _ => []
  | (ip, st0) :: rest, addr, st =>
    (if ip = addr.ip then (ip, st) else (ip, st0)) ::
      PermissionMap.setState rest addr st

/-- The state threaded through the permission gate of send_to: the
connection state, the permission map, the state of the Permission entry
the call holds an Arc to, and the number of CreatePermission transactions
performed so far (used to index the response oracle). -/
structure GateSt where
  conn : ConnState
  permMap : PermissionMap
  localPerm : PermState
  txCount : Nat

/-- RelayConnInternal::create_perm (lines 315-325).  Only an Idle
permission issues a CreatePermission; on error the map entry is deleted
and the error returned; on success the shared entry is set Permitted.
The oracle gives the outcome of the i-th CreatePermission transaction. -/
def create_perm (oracle : Nat → Except Error Message) (addr : SocketAddr)
    (st : GateSt) : GateSt × Except Error Unit × List OutEvent :=
  if st.localPerm = PermState.idle then
    let r := create_permissions st.conn [addr] (oracle st.txCount)
    let st' : GateSt :=
      { st with conn := r.1, txCount := st.txCount + 1 }
    match r.2.1 with
    | Except.error e =>
      ({ st' with permMap := st'.permMap.delete addr }, Except.error e, r.2.2)
    | Except.ok _ =>
      ({ st' with
          localPerm := PermState.permitted
          permMap := st'.permMap.setState addr PermState.permitted },
        Except.ok (), r.2.2)
  else
    (st, Except.ok (), [])

/-- MAX_RETRY_ATTEMPTS of relay_conn.rs. -/
def MAX_RETRY_ATTEMPTS : Nat := 3

/-- The retry loop of send_to (lines 169-177): for each of the (at most
MAX_RETRY_ATTEMPTS) iterations run create_perm; break out of the loop on
any error other than ErrTryAgain; the loop's last result stands. -/
def permGateLoop (oracle : Nat → Except Error Message) (addr : SocketAddr) :
    Nat → GateSt → Except Error Unit → List OutEvent →
    GateSt × Except Error Unit × List OutEvent
  | 0, st, r, acc => (st, r, acc)
  | Nat.succ fuel, st, _, acc =>
    let step := create_perm oracle addr st
    match step.2.1 with
    | Except.error e =>
      if e = Error.errTryAgain then
        permGateLoop oracle addr fuel step.1 (Except.error e) (acc ++ step.2.2)
      else
        (step.1, Except.error e, acc ++ step.2.2)
    | Except.ok u =>
      permGateLoop oracle addr fuel step.1 (Except.ok u) (acc ++ step.2.2)

/-- The permission gate of send_to (lines 159-180): find or insert the
permission entry for addr's IP, then run the retry loop; an error left by
the loop is propagated to the caller of send_to. -/
def permGate (oracle : Nat → Except Error Message) (addr : SocketAddr)
    (conn : ConnState) (permMap : PermissionMap) :
    GateSt × Except Error Unit × List OutEvent :=
  let found := permMap.find addr
  let st : GateSt :=
    match found with
    | some p => { conn := conn, permMap := permMap, localPerm := p, txCount := 0 }
    | none =>
      { conn := conn, permMap := permMap.insert addr PermState.idle,
        localPerm := PermState.idle, txCount := 0 }
  permGateLoop oracle addr MAX_RETRY_ATTEMPTS st (Except.ok ()) []

/-- Two sequential send_to permission gates (the second starting from the
connection state and permission map the first one left): the final state,
the result of each gate, and the events of both in order. -/
def permGateTwice (oracle1 oracle2 : Nat → Except Error Message)
    (p1 p2 : SocketAddr) (conn : ConnState) (permMap : PermissionMap) :
    GateSt × (Except Error Unit × Except Error Unit) × List OutEvent :=
  let r1 := permGate oracle1 p1 conn permMap
  let r2 := permGate oracle2 p2 r1.1.conn r1.1.permMap
  (r2.1, (r1.2.1, r2.2.1), r1.2.2 ++ r2.2.2)

/-! ## Binding manager, the outbound dispatch and the bind tasks -/

/-- Binding states (binding.rs, not in the given sources).  Modelled from
the spec: Idle, Request, Ready, Refresh, Failed. -/
inductive BindingState where
  | idle
  | request
  | ready
  | refresh
  | failed
deriving DecidableEq

/-- A channel binding: channel number, peer address, state and the instant
of the last refresh (instants are modelled as Nat ticks).  Modelled from
the spec for the missing binding.rs; a fresh binding starts Idle with
refreshed_at set at creation time. -/
structure Binding where
  number : Nat
  addr : SocketAddr
  state : BindingState
  refreshedAt : Nat
deriving DecidableEq

/-- Modelled from the spec: binding.rs is not in the given sources.  The
BindingManager maps peer (ip, port) addresses to bindings and hands out
channel numbers from the range 0x4000 to 0x7fff; next is the next unused
number. -/
structure BindingManager where
  entries : List Binding
  next : Nat

/-- Lookup of the first binding with the given address in an entry
list. -/
def findBinding : List Binding → SocketAddr → Option Binding
  | [], _ => none
  | b :: rest, addr => if b.addr = addr then some b else findBinding rest addr

/-- Removal of the bindings with the given address from an entry list. -/
def removeBinding : List Binding → SocketAddr → List Binding
  | [], _ => []
  | b :: rest, addr =>
    if b.addr = addr then removeBinding rest addr
    else b :: removeBinding rest addr

/-- Updating the bindings with the given address in an entry list. -/
def updateBinding (f : Binding → Binding) :
    List Binding → SocketAddr → List Binding
  | [], _ => []
  | b :: rest, addr =>
    (if b.addr = addr then f b else b) :: updateBinding f rest addr

/-- BindingManager::find_by_addr (modelled from the spec). -/
def BindingManager.find_by_addr (bm : BindingManager) (addr : SocketAddr) :
    Option Binding :=
  findBinding bm.entries addr

/-- The smallest channel number, 0x4000. -/
def MIN_CHANNEL_NUMBER : Nat := 0x4000

/-- The largest channel number, 0x7fff. -/
def MAX_CHANNEL_NUMBER : Nat := 0x7fff

/-- BindingManager::create (modelled from the spec): allocate the next
channel number in the range; none once the range 0x4000 to 0x7fff is
exhausted.  The new binding starts Idle, refreshed at the current
instant. -/
def BindingManager.create (bm : BindingManager) (addr : SocketAddr)
    (now : Nat) : Option (Binding × BindingManager) :=
  if bm.next ≤ MAX_CHANNEL_NUMBER then
    let b : Binding :=
      { number := bm.next, addr := addr, state := BindingState.idle,
        refreshedAt := now }
    some (b, { entries := b :: bm.entries, next := bm.next + 1 })
  else
    none

/-- BindingManager::delete_by_addr (modelled from the spec). -/
def BindingManager.delete_by_addr (bm : BindingManager) (addr : SocketAddr) :
    BindingManager :=
  { bm with entries := removeBinding bm.entries addr }

/-- Binding::set_state through get_by_addr (modelled from the spec): the
entry for addr, if present, takes the new state. -/
def BindingManager.set_state (bm : BindingManager) (addr : SocketAddr)
    (st : BindingState) : BindingManager :=
  { bm with
    entries := updateBinding (fun b => { b with state := st }) bm.entries addr }

/-- Binding::set_refreshed_at through get_by_addr (modelled from the
spec). -/
def BindingManager.set_refreshed_at (bm : BindingManager) (addr : SocketAddr)
    (now : Nat) : BindingManager :=
  { bm with
    entries :=
      updateBinding (fun b => { b with refreshedAt := now }) bm.entries addr }

/-- The binding lookup step of send_to (lines 182-193): find the binding
for addr, create one if absent, and fail with the literal Error::Other
message when create returns none. -/
def bindingLookup (bm : BindingManager) (addr : SocketAddr) (now : Nat) :
    Except Error (Binding × BindingManager) :=
  match bm.find_by_addr addr with
  | some b => Except.ok (b, bm)
  | none =>
    match bm.create addr now with
    | some r => Except.ok r
    | none => Except.error (Error.other "Addr not found")

/-- The Send indication built by send_to (lines 243-250): Data, the peer
address (XOR-PEER-ADDRESS) and FINGERPRINT. -/
def sendIndicationMsg (p : List Nat) (addr : SocketAddr) : BuiltMsg :=
  { method := Method.send
    msgClass := MessageClass.indication
    attrs := [Attr.data p, Attr.xorPeerAddress addr, Attr.fingerprint] }

/-- The emission choice of send_to after the binding state has been
captured (lines 195-305): a captured state of Idle, Request or Failed
sends the payload as a Send indication written fire-and-forget with
write_to; any other captured state (Ready, or Refresh while a re-bind is
in flight) reaches send_channel_data, which writes a ChannelData frame
with the binding's channel number.  The background bind tasks the same
code spawns only touch the binding manager and are modelled separately by
bindCompleteInitial and bindCompleteRefresh. -/
def dispatch (bindSt : BindingState) (number : Nat) (p : List Nat)
    (addr : SocketAddr) : OutEvent :=
  if bindSt = BindingState.idle ∨ bindSt = BindingState.request ∨
      bindSt = BindingState.failed then
    OutEvent.write (Wire.stun (sendIndicationMsg p addr))
  else
    OutEvent.write (Wire.chanData number p)

/-- The ChannelBind request built by RelayConnInternal::bind (lines
476-489). -/
def channelBindMsg (addr : SocketAddr) (number : Nat) (nonce : String) :
    BuiltMsg :=
  { method := Method.channelBind
    msgClass := MessageClass.request
    attrs := [Attr.xorPeerAddress addr, Attr.channelNumber number,
      Attr.username theUsername, Attr.realm theRealm, Attr.nonceA nonce,
      Attr.integrity, Attr.fingerprint] }

/-- RelayConnInternal::bind (lines 466-511): perform the ChannelBind
transaction; any response that is not a CHANNEL_BIND success response is
ErrUnexpectedResponse. -/
def bindResult (outcome : Except Error Message) : Except Error Unit :=
  match outcome with
  | Except.error e => Except.error e
  | Except.ok res =>
    if res.typ ≠ MessageType.mk Method.channelBind MessageClass.successResponse
    then Except.error Error.errUnexpectedResponse
    else Except.ok ()

/-- The completion handler of the background bind spawned from the Idle
branch of send_to (lines 223-237): on an error other than
ErrUnexpectedResponse delete the binding, on ErrUnexpectedResponse set it
Failed, and on success set it Ready (refreshed_at is not touched). -/
def bindCompleteInitial (bm : BindingManager) (addr : SocketAddr)
    (result : Except Error Unit) : BindingManager :=
  match result with
  | Except.error e =>
    if e ≠ Error.errUnexpectedResponse then bm.delete_by_addr addr
    else bm.set_state addr BindingState.failed
  | Except.ok _ => bm.set_state addr BindingState.ready

/-- The completion handler of the background re-bind spawned from the
Ready-and-stale branch of send_to (lines 282-297): the error cases are as
in the initial handler; on success set refreshed_at to the current instant
and the state to Ready. -/
def bindCompleteRefresh (bm : BindingManager) (addr : SocketAddr) (now : Nat)
    (result : Except Error Unit) : BindingManager :=
  match result with
  | Except.error e =>
    if e ≠ Error.errUnexpectedResponse then bm.delete_by_addr addr
    else bm.set_state addr BindingState.failed
  | Except.ok _ =>
    (bm.set_refreshed_at addr now).set_state addr BindingState.ready

/-! ## Wire sizes of the emitted frames -/

/-- Rounding a length up to the 4-byte STUN alignment. -/
def pad4 (n : Nat) : Nat := 4 * ((n + 3) / 4)

/-- The encoded value length of each attribute.  Modelled from the spec:
the codec modules are not in the given sources.  XOR-PEER-ADDRESS is 8
bytes for IPv4 (family, port, xored address); MESSAGE-INTEGRITY is a
20-byte HMAC-SHA1; FINGERPRINT a 4-byte CRC-32; Lifetime a u32;
ChannelNumber a 16-bit value; the text attributes carry their string. -/
def attrValueLen : Attr → Nat
  | Attr.data p => p.length
  | Attr.xorPeerAddress _ => 8
  | Attr.username s => s.length
  | Attr.realm s => s.length
  | Attr.nonceA s => s.length
  | Attr.integrity => 20
  | Attr.fingerprint => 4
  | Attr.lifetimeA _ => 4
  | Attr.channelNumber _ => 2

/-- The encoded size of a STUN message (modelled from the spec): a 20-byte
header, then each attribute as a 4-byte TLV header plus its value padded
to the 4-byte alignment. -/
def stunEncodedLen (m : BuiltMsg) : Nat :=
  20 + (m.attrs.map (fun a => 4 + pad4 (attrValueLen a))).foldl (· + ·) 0

/-- The encoded size of an outbound frame.  Modelled from the spec: a
ChannelData frame is the 4-byte header (channel number and length)
followed by the payload padded to the 4-byte alignment. -/
def wireLen : Wire → Nat
  | Wire.stun m => stunEncodedLen m
  | Wire.chanData _ p => 4 + pad4 p.length

/-- The byte count a successful send_to returns: both emission paths
return the value of obs.write_to on the encoded frame, which for a UDP
socket is the full datagram size (modelled from the spec).  RelayConn::
send_to (lines 120-126) passes this count through unchanged. -/
def sendToCount (bindSt : BindingState) (number : Nat) (p : List Nat)
    (addr : SocketAddr) : Nat :=
  match dispatch bindSt number p addr with
  | OutEvent.write w => wireLen w
  | OutEvent.transact _ _ => 0

/-- A 438 STALE_NONCE error response carrying the fresh nonce N: the one
shape of response on which the permission gate retries. -/
def staleResponse (m : Message) (N : String) : Prop :=
  m.typ.msgClass = MessageClass.errorResponse ∧
  m.errorCode = some CODE_STALE_NONCE ∧
  m.nonceAttr = some N

end TurnRelay

namespace TurnRelay

/-! ## Theorems for claim C1 -/

/-- C1 counterexample: with two queued datagrams of lengths 2 and 1 and a
one-byte buffer, the short-buffer recv_from consumes the first datagram:
the following recv_from with a large buffer returns the second datagram's
payload, not the first one's.  This refutes the claim that the datagram is
not consumed. -/
theorem c1_short_buffer_consumes_counterexample :
    recv_from
        [⟨[7, 8], ⟨1, 1⟩⟩, ⟨[9], ⟨2, 2⟩⟩] false [0] =
      some (Except.error Error.errShortBuffer, [0], [⟨[9], ⟨2, 2⟩⟩]) ∧
    recv_from [⟨[9], ⟨2, 2⟩⟩] false [0, 0, 0] =
      some (Except.ok (1, ⟨2, 2⟩), [9, 0, 0], []) ∧
    [9, 0, 0] ≠ [7, 8, 0] := by
  refine ⟨rfl, rfl, by decide⟩

/-- C1 (amended): when the next queued inbound datagram is larger than the
buffer, recv_from returns the ErrShortBuffer error and delivers no bytes
into the buffer, but the datagram is consumed (dropped): the queue after
the call is the remaining tail, so a retry sees the next datagram, not the
same one. -/
theorem c1_recv_from_short_buffer (queue : List InboundData) (closed : Bool)
    (p : List Nat) (d : InboundData) (rest : List InboundData)
    (hq : queue = d :: rest) (hlen : p.length < d.data.length) :
    recv_from queue closed p = some (Except.error Error.errShortBuffer, p, rest) := by
  subst hq
  simp [recv_from, hlen]

/-- Witness for c1_recv_from_short_buffer at a concrete queue and buffer. -/
theorem c1_recv_from_short_buffer_witness :
    ([(0 : Nat)].length < [7, 8].length ∧
      ([⟨[7, 8], ⟨1, 1⟩⟩, ⟨[9], ⟨2, 2⟩⟩] : List InboundData) =
        ⟨[7, 8], ⟨1, 1⟩⟩ :: [⟨[9], ⟨2, 2⟩⟩]) ∧
    recv_from [⟨[7, 8], ⟨1, 1⟩⟩, ⟨[9], ⟨2, 2⟩⟩] false [0] =
      some (Except.error Error.errShortBuffer, [0], [⟨[9], ⟨2, 2⟩⟩]) :=
  ⟨⟨by decide, rfl⟩,
    c1_recv_from_short_buffer _ false [0] ⟨[7, 8], ⟨1, 1⟩⟩ [⟨[9], ⟨2, 2⟩⟩] rfl
      (by decide)⟩

end TurnRelay

namespace TurnRelay

/-! ## Theorems for claim C3 -/

/-- C3: when the captured binding state is Idle, Request or Failed, the
payload goes out as a STUN Send indication (METHOD_SEND,
CLASS_INDICATION) carrying Data, XorPeerAddress and FINGERPRINT, written
fire-and-forget with write_to; when the captured state is Ready, or
Refresh while a re-bind is in flight, the payload goes out as a
ChannelData frame with the binding's channel number and no STUN
message. -/
theorem c3_dispatch_by_state (bindSt : BindingState) (number : Nat)
    (p : List Nat) (addr : SocketAddr) :
    ((bindSt = BindingState.idle ∨ bindSt = BindingState.request ∨
        bindSt = BindingState.failed) →
      dispatch bindSt number p addr =
        OutEvent.write (Wire.stun
          { method := Method.send
            msgClass := MessageClass.indication
            attrs := [Attr.data p, Attr.xorPeerAddress addr,
              Attr.fingerprint] })) ∧
    ((bindSt = BindingState.ready ∨ bindSt = BindingState.refresh) →
      dispatch bindSt number p addr =
        OutEvent.write (Wire.chanData number p)) := by
  constructor
  · intro h
    unfold dispatch
    rw [if_pos h]
    rfl
  · intro h
    unfold dispatch
    rcases h with h | h <;> subst h <;> rfl

/-- Witness for c3_dispatch_by_state: an Idle binding emits the Send
indication, a Ready binding the ChannelData frame. -/
theorem c3_dispatch_by_state_witness :
    ((BindingState.idle = BindingState.idle ∨
        BindingState.idle = BindingState.request ∨
        BindingState.idle = BindingState.failed) ∧
      dispatch BindingState.idle 0x4000 [1, 2] ⟨7, 9⟩ =
        OutEvent.write (Wire.stun
          { method := Method.send
            msgClass := MessageClass.indication
            attrs := [Attr.data [1, 2], Attr.xorPeerAddress ⟨7, 9⟩,
              Attr.fingerprint] })) ∧
    ((BindingState.ready = BindingState.ready ∨
        BindingState.ready = BindingState.refresh) ∧
      dispatch BindingState.ready 0x4000 [1, 2] ⟨7, 9⟩ =
        OutEvent.write (Wire.chanData 0x4000 [1, 2])) :=
  ⟨⟨Or.inl rfl,
      (c3_dispatch_by_state BindingState.idle 0x4000 [1, 2] ⟨7, 9⟩).1
        (Or.inl rfl)⟩,
    ⟨Or.inl rfl,
      (c3_dispatch_by_state BindingState.ready 0x4000 [1, 2] ⟨7, 9⟩).2
        (Or.inl rfl)⟩⟩

/-! ## Theorems for claim C7 -/

/-- C7: refresh_allocation with dont_wait returns Ok right after the
request is handed over, leaving the state alone and never examining the
response; without dont_wait a success response's Lifetime attribute
becomes the new lifetime, and a 438 STALE_NONCE error response updates
the nonce from the response and yields ErrTryAgain. -/
theorem c7_refresh_allocation (st : ConnState) (lt : Nat) (m : Message)
    (L : Nat) (N : String) :
    (refresh_allocation st lt true (Except.ok m) =
      (st, Except.ok (), [OutEvent.transact (refreshMsg lt st.nonce) true])) ∧
    (m.typ.msgClass ≠ MessageClass.errorResponse → m.lifetimeAttr = some L →
      refresh_allocation st lt false (Except.ok m) =
        ({ st with lifetime := L }, Except.ok (),
          [OutEvent.transact (refreshMsg lt st.nonce) false])) ∧
    (m.typ.msgClass = MessageClass.errorResponse →
      m.errorCode = some CODE_STALE_NONCE → m.nonceAttr = some N →
      refresh_allocation st lt false (Except.ok m) =
        ({ st with nonce := N }, Except.error Error.errTryAgain,
          [OutEvent.transact (refreshMsg lt st.nonce) false])) := by
  refine ⟨rfl, ?_, ?_⟩
  · intro hclass hlife
    simp [refresh_allocation, hclass, hlife]
  · intro hclass hcode hnonce
    simp [refresh_allocation, hclass, hcode, set_nonce_from_msg, hnonce]

/-- Witness for c7_refresh_allocation: a success response carrying
lifetime 600, and a 438 error response carrying a fresh nonce. -/
theorem c7_refresh_allocation_witness :
    ((⟨⟨Method.refresh, MessageClass.successResponse⟩, none, none,
          some 600⟩ : Message).typ.msgClass ≠ MessageClass.errorResponse ∧
      refresh_allocation ⟨"n1", 0⟩ 0 false
          (Except.ok ⟨⟨Method.refresh, MessageClass.successResponse⟩, none,
            none, some 600⟩) =
        (⟨"n1", 600⟩, Except.ok (),
          [OutEvent.transact (refreshMsg 0 "n1") false])) ∧
    refresh_allocation ⟨"n1", 0⟩ 0 false
        (Except.ok ⟨⟨Method.refresh, MessageClass.errorResponse⟩, some 438,
          some "n2", none⟩) =
      (⟨"n2", 0⟩, Except.error Error.errTryAgain,
        [OutEvent.transact (refreshMsg 0 "n1") false]) :=
  ⟨⟨by decide,
      (c7_refresh_allocation ⟨"n1", 0⟩ 0
          ⟨⟨Method.refresh, MessageClass.successResponse⟩, none, none,
            some 600⟩ 600 "x").2.1 (by decide) rfl⟩,
    (c7_refresh_allocation ⟨"n1", 0⟩ 0
        ⟨⟨Method.refresh, MessageClass.errorResponse⟩, some 438, some "n2",
          none⟩ 600 "n2").2.2 rfl rfl rfl⟩

end TurnRelay

namespace TurnRelay

/-! ## Theorems for claim C9 -/

/-- C9: when the binding manager has no binding for the peer and the
channel-number range 0x4000 to 0x7fff is exhausted, create returns none
and the lookup step of send_to fails with the literal error message
"Addr not found". -/
theorem c9_addr_not_found (bm : BindingManager) (addr : SocketAddr)
    (now : Nat) (hfind : bm.find_by_addr addr = none)
    (hnext : MAX_CHANNEL_NUMBER < bm.next) :
    bm.create addr now = none ∧
    bindingLookup bm addr now = Except.error (Error.other "Addr not found") := by
  have hc : bm.create addr now = none := by
    unfold BindingManager.create
    rw [if_neg]
    omega
  refine ⟨hc, ?_⟩
  unfold bindingLookup
  rw [hfind, hc]

/-- Witness for c9_addr_not_found: an exhausted manager (next number is
0x8000) with no binding for the peer. -/
theorem c9_addr_not_found_witness :
    ((BindingManager.mk [] 0x8000).find_by_addr ⟨1, 2⟩ = none ∧
      MAX_CHANNEL_NUMBER < (BindingManager.mk [] 0x8000).next) ∧
    bindingLookup (BindingManager.mk [] 0x8000) ⟨1, 2⟩ 0 =
      Except.error (Error.other "Addr not found") :=
  ⟨⟨rfl, by decide⟩,
    (c9_addr_not_found (BindingManager.mk [] 0x8000) ⟨1, 2⟩ 0 rfl
      (by decide)).2⟩

/-! ## Theorems for claim C10 -/

/-- Padding never shrinks a length. -/
theorem pad4_ge (n : Nat) : n ≤ pad4 n := by
  unfold pad4
  have h1 := Nat.div_add_mod (n + 3) 4
  have h2 : (n + 3) % 4 < 4 := Nat.mod_lt _ (by norm_num)
  omega

/-- The encoded size of the Send indication send_to builds: 20-byte
header, Data (4 + padded payload), XOR-PEER-ADDRESS (4 + 8) and
FINGERPRINT (4 + 4). -/
theorem stunEncodedLen_sendIndication (p : List Nat) (addr : SocketAddr) :
    stunEncodedLen (sendIndicationMsg p addr) = 44 + pad4 p.length := by
  have h8 : pad4 8 = 8 := rfl
  have h4 : pad4 4 = 4 := rfl
  simp [stunEncodedLen, sendIndicationMsg, attrValueLen, h8, h4]
  omega

/-- C10: the count a successful send_to returns is the size of the encoded
frame written to the socket: the full STUN Send indication on the
indication path, and the ChannelData frame including its 4-byte header and
padding on the channel path; in both cases it is strictly greater than the
payload length, never the payload length itself. -/
theorem c10_count_is_wire_size (bindSt : BindingState) (number : Nat)
    (p : List Nat) (addr : SocketAddr) :
    ((bindSt = BindingState.idle ∨ bindSt = BindingState.request ∨
        bindSt = BindingState.failed) →
      sendToCount bindSt number p addr =
        stunEncodedLen (sendIndicationMsg p addr)) ∧
    ((bindSt = BindingState.ready ∨ bindSt = BindingState.refresh) →
      sendToCount bindSt number p addr = wireLen (Wire.chanData number p)) ∧
    p.length < sendToCount bindSt number p addr := by
  have hp := pad4_ge p.length
  have hstun := stunEncodedLen_sendIndication p addr
  refine ⟨?_, ?_, ?_⟩
  · intro h
    unfold sendToCount dispatch
    rw [if_pos h]
    rfl
  · intro h
    unfold sendToCount dispatch
    rcases h with h | h <;> subst h <;> rfl
  · unfold sendToCount dispatch
    by_cases h : bindSt = BindingState.idle ∨ bindSt = BindingState.request ∨
        bindSt = BindingState.failed
    · rw [if_pos h]
      show p.length < stunEncodedLen (sendIndicationMsg p addr)
      rw [hstun]
      omega
    · rw [if_neg h]
      show p.length < 4 + pad4 p.length
      omega

/-- Witness for c10_count_is_wire_size: a 5-byte payload goes out as a 52
byte Send indication from an Idle binding and as a 12-byte ChannelData
frame from a Ready binding. -/
theorem c10_count_is_wire_size_witness :
    ((BindingState.idle = BindingState.idle ∨
        BindingState.idle = BindingState.request ∨
        BindingState.idle = BindingState.failed) ∧
      sendToCount BindingState.idle 0x4000 [1, 2, 3, 4, 5] ⟨7, 9⟩ =
        stunEncodedLen (sendIndicationMsg [1, 2, 3, 4, 5] ⟨7, 9⟩)) ∧
    ((BindingState.ready = BindingState.ready ∨
        BindingState.ready = BindingState.refresh) ∧
      sendToCount BindingState.ready 0x4000 [1, 2, 3, 4, 5] ⟨7, 9⟩ =
        wireLen (Wire.chanData 0x4000 [1, 2, 3, 4, 5])) ∧
    ([1, 2, 3, 4, 5] : List Nat).length <
      sendToCount BindingState.ready 0x4000 [1, 2, 3, 4, 5] ⟨7, 9⟩ :=
  ⟨⟨Or.inl rfl,
      (c10_count_is_wire_size BindingState.idle 0x4000 [1, 2, 3, 4, 5]
          ⟨7, 9⟩).1 (Or.inl rfl)⟩,
    ⟨Or.inl rfl,
      (c10_count_is_wire_size BindingState.ready 0x4000 [1, 2, 3, 4, 5]
          ⟨7, 9⟩).2.1 (Or.inl rfl)⟩,
    (c10_count_is_wire_size BindingState.ready 0x4000 [1, 2, 3, 4, 5]
        ⟨7, 9⟩).2.2⟩

end TurnRelay

namespace TurnRelay

/-! ## Theorems for claim C4 -/

/-- C4 counterexample: RelayConnInternal carries no closed flag, so the
second close runs refresh_allocation again; after two close calls the
outbound events contain two Refresh(lifetime = 0) requests, not one.
This refutes the claim that a second close emits none. -/
theorem c4_second_close_emits_counterexample :
    ((closeTwice ⟨"n", 600⟩
          (Except.ok ⟨⟨Method.refresh, MessageClass.successResponse⟩, none,
            none, none⟩)
          (Except.ok ⟨⟨Method.refresh, MessageClass.successResponse⟩, none,
            none, none⟩)).2.countP (isRefreshZero "n")) = 2 ∧
    (2 : Nat) ≠ 1 := by
  exact ⟨rfl, by decide⟩

/-- C4 (amended): every call of close hands exactly one
Refresh(lifetime = 0) request to the transaction engine fire-and-forget
and leaves the connection state unchanged; since there is no closed flag,
a second close emits a second identical Refresh rather than none.  Once
the receive queue is closed (the sender side is dropped during teardown,
outside this file's sources), a pending recv_from resolves with the
already-closed error. -/
theorem c4_close_not_idempotent (st : ConnState)
    (o1 o2 : Except Error Message) (p : List Nat) :
    (close st o1).1 = st ∧
    (close st o1).2 = [OutEvent.transact (refreshMsg 0 st.nonce) true] ∧
    (closeTwice st o1 o2).2 =
      [OutEvent.transact (refreshMsg 0 st.nonce) true,
        OutEvent.transact (refreshMsg 0 st.nonce) true] ∧
    recv_from [] true p = some (Except.error Error.errAlreadyClosed, p, []) := by
  have hclose : ∀ o : Except Error Message, close st o = (st, [OutEvent.transact (refreshMsg 0 st.nonce) true]) := by
    intro o
    cases o <;> rfl
  refine ⟨?_, ?_, ?_, rfl⟩
  · rw [hclose o1]
  · rw [hclose o1]
  · show (close st o1).2 ++ (close (close st o1).1 o2).2 = _
    rw [hclose o1]
    show _ ++ (close st o2).2 = _
    rw [hclose o2]
    rfl

end TurnRelay

namespace TurnRelay

/-! ## Theorems for claim C5 -/

/-- Lookup after an address-preserving update: the found entry is the
updated one. -/
theorem findBinding_updateBinding (f : Binding → Binding)
    (l : List Binding) (a : SocketAddr) (hf : ∀ b, (f b).addr = b.addr) :
    findBinding (updateBinding f l a) a = (findBinding l a).map f := by
  induction l with
  | nil => rfl
  | cons b rest ih =>
    by_cases hb : b.addr = a
    · simp [updateBinding, findBinding, hb, hf b]
    · simp [updateBinding, findBinding, hb, ih]

/-- Lookup after removal finds nothing. -/
theorem findBinding_removeBinding (l : List Binding) (a : SocketAddr) :
    findBinding (removeBinding l a) a = none := by
  induction l with
  | nil => rfl
  | cons b rest ih =>
    by_cases hb : b.addr = a
    · simp [removeBinding, hb, ih]
    · simp [removeBinding, findBinding, hb, ih]

/-- C5 counterexample: the completion handler of the initial bind spawn
leaves refreshed_at untouched on success.  A binding created at instant 0
whose ChannelBind completes successfully at instant 100 still carries
refreshed_at = 0, refuting the claim that success sets refreshed_at to the
current instant. -/
theorem c5_initial_success_refreshed_at_counterexample :
    (bindCompleteInitial
          ⟨[⟨0x4000, ⟨1, 2⟩, BindingState.request, 0⟩], 0x4001⟩ ⟨1, 2⟩
          (Except.ok ())).find_by_addr ⟨1, 2⟩ =
      some ⟨0x4000, ⟨1, 2⟩, BindingState.ready, 0⟩ ∧
    (0 : Nat) ≠ 100 :=
  ⟨rfl, by decide⟩

/-- C5 (amended): when a spawned ChannelBind completes, success sets the
binding's state to Ready — only the refresh-path handler additionally sets
refreshed_at to the current instant, the initial-path handler leaves it at
its creation value; ErrUnexpectedResponse (any response that is not a
CHANNEL_BIND success) sets the state to Failed and keeps the entry; any
other error deletes the entry from the manager. -/
theorem c5_bind_completion (bm : BindingManager) (a : SocketAddr)
    (now : Nat) (e : Error) :
    (bindCompleteInitial bm a (Except.ok ())).find_by_addr a =
        (bm.find_by_addr a).map
          (fun b => { b with state := BindingState.ready }) ∧
    (bindCompleteRefresh bm a now (Except.ok ())).find_by_addr a =
        (bm.find_by_addr a).map
          (fun b => { b with state := BindingState.ready, refreshedAt := now }) ∧
    (bindCompleteInitial bm a
          (Except.error Error.errUnexpectedResponse)).find_by_addr a =
        (bm.find_by_addr a).map
          (fun b => { b with state := BindingState.failed }) ∧
    (bindCompleteRefresh bm a now
          (Except.error Error.errUnexpectedResponse)).find_by_addr a =
        (bm.find_by_addr a).map
          (fun b => { b with state := BindingState.failed }) ∧
    (e ≠ Error.errUnexpectedResponse →
      (bindCompleteInitial bm a (Except.error e)).find_by_addr a = none ∧
      (bindCompleteRefresh bm a now (Except.error e)).find_by_addr a = none) ∧
    (∀ m : Message,
      m.typ ≠ MessageType.mk Method.channelBind MessageClass.successResponse →
      bindResult (Except.ok m) = Except.error Error.errUnexpectedResponse) := by
  have hstate : ∀ (bm' : BindingManager) (s : BindingState),
      (bm'.set_state a s).find_by_addr a =
        (bm'.find_by_addr a).map (fun b => { b with state := s }) := by
    intro bm' s
    exact findBinding_updateBinding _ bm'.entries a (fun b => rfl)
  have hrefreshed : ∀ bm' : BindingManager,
      (bm'.set_refreshed_at a now).find_by_addr a =
        (bm'.find_by_addr a).map (fun b => { b with refreshedAt := now }) := by
    intro bm'
    exact findBinding_updateBinding _ bm'.entries a (fun b => rfl)
  have hdel : ∀ bm' : BindingManager,
      (bm'.delete_by_addr a).find_by_addr a = none := by
    intro bm'
    exact findBinding_removeBinding bm'.entries a
  refine ⟨?_, ?_, ?_, ?_, ?_, ?_⟩
  · show (bm.set_state a BindingState.ready).find_by_addr a = _
    rw [hstate]
  · show ((bm.set_refreshed_at a now).set_state a
        BindingState.ready).find_by_addr a = _
    rw [hstate, hrefreshed]
    cases bm.find_by_addr a <;> rfl
  · show (bm.set_state a BindingState.failed).find_by_addr a = _
    rw [hstate]
  · show (bm.set_state a BindingState.failed).find_by_addr a = _
    rw [hstate]
  · intro he
    constructor
    · show (if e ≠ Error.errUnexpectedResponse then bm.delete_by_addr a
          else bm.set_state a BindingState.failed).find_by_addr a = none
      rw [if_pos he]
      exact hdel bm
    · show (if e ≠ Error.errUnexpectedResponse then bm.delete_by_addr a
          else bm.set_state a BindingState.failed).find_by_addr a = none
      rw [if_pos he]
      exact hdel bm
  · intro m hm
    show (if m.typ ≠ MessageType.mk Method.channelBind
            MessageClass.successResponse then
          Except.error Error.errUnexpectedResponse
        else Except.ok ()) = Except.error Error.errUnexpectedResponse
    rw [if_pos hm]

/-- Witness for c5_bind_completion at a one-entry manager: the refresh
completion at instant 100 re-arms refreshed_at, a timeout-style error
deletes the entry, and a wrong-typed response maps to
ErrUnexpectedResponse. -/
theorem c5_bind_completion_witness :
    (bindCompleteRefresh
          ⟨[⟨0x4000, ⟨1, 2⟩, BindingState.refresh, 0⟩], 0x4001⟩ ⟨1, 2⟩ 100
          (Except.ok ())).find_by_addr ⟨1, 2⟩ =
      ((⟨[⟨0x4000, ⟨1, 2⟩, BindingState.refresh, 0⟩],
            0x4001⟩ : BindingManager).find_by_addr ⟨1, 2⟩).map
        (fun b => { b with state := BindingState.ready, refreshedAt := 100 }) ∧
    (Error.other "timeout" ≠ Error.errUnexpectedResponse ∧
      (bindCompleteInitial
            ⟨[⟨0x4000, ⟨1, 2⟩, BindingState.request, 0⟩], 0x4001⟩ ⟨1, 2⟩
            (Except.error (Error.other "timeout"))).find_by_addr ⟨1, 2⟩ =
        none) ∧
    ((⟨⟨Method.channelBind, MessageClass.errorResponse⟩, some 400, none,
          none⟩ : Message).typ ≠
        MessageType.mk Method.channelBind MessageClass.successResponse ∧
      bindResult (Except.ok ⟨⟨Method.channelBind, MessageClass.errorResponse⟩,
          some 400, none, none⟩) =
        Except.error Error.errUnexpectedResponse) :=
  ⟨(c5_bind_completion ⟨[⟨0x4000, ⟨1, 2⟩, BindingState.refresh, 0⟩], 0x4001⟩
      ⟨1, 2⟩ 100 Error.errTryAgain).2.1,
    ⟨by decide,
      ((c5_bind_completion ⟨[⟨0x4000, ⟨1, 2⟩, BindingState.request, 0⟩],
            0x4001⟩ ⟨1, 2⟩ 100 (Error.other "timeout")).2.2.2.2.1
        (by decide)).1⟩,
    ⟨by decide,
      (c5_bind_completion ⟨[⟨0x4000, ⟨1, 2⟩, BindingState.request, 0⟩],
          0x4001⟩ ⟨1, 2⟩ 100 Error.errTryAgain).2.2.2.2.2
        ⟨⟨Method.channelBind, MessageClass.errorResponse⟩, some 400, none,
          none⟩ (by decide)⟩⟩

end TurnRelay

namespace TurnRelay

/-! ## Theorems for claim C6 -/

/-- C6 counterexample: create_perm issues the CreatePermission (the
transaction count rises to 1) but, when the transaction ends in a 438
error response, the permission is still Idle afterwards — the Permitted
mark is placed only after create_permissions has returned success, so the
install is not optimistic with respect to the response. -/
theorem c6_not_optimistic_counterexample :
    (let oracle : Nat → Except Error Message := fun _ =>
        Except.ok ⟨⟨Method.createPermission, MessageClass.errorResponse⟩,
          some 438, some "n2", none⟩
      let r := create_perm oracle ⟨1, 9⟩
        ⟨⟨"n1", 600⟩, [(1, PermState.idle)], PermState.idle, 0⟩
      r.1.txCount = 1 ∧ r.1.localPerm = PermState.idle) ∧
    PermState.idle ≠ PermState.permitted :=
  ⟨⟨rfl, rfl⟩, by decide⟩

/-- C6 (amended): an Idle permission entry transitions to Permitted
exactly when create_permissions returns success, that is, only after the
CreatePermission response has been received and processed as a success;
send_to therefore waits for the response before marking the permission
Permitted, and on failure the entry never becomes Permitted. -/
theorem c6_permitted_iff_success (oracle : Nat → Except Error Message)
    (addr : SocketAddr) (st : GateSt)
    (h : st.localPerm = PermState.idle) :
    (create_perm oracle addr st).1.localPerm = PermState.permitted ↔
      (create_permissions st.conn [addr] (oracle st.txCount)).2.1 =
        Except.ok () := by
  cases hr : (create_permissions st.conn [addr] (oracle st.txCount)).2.1 with
  | error e => simp [create_perm, h, hr]
  | ok u => simp [create_perm, h, hr]

/-- Witness for c6_permitted_iff_success: with a success response the
permission becomes Permitted. -/
theorem c6_permitted_iff_success_witness :
    (GateSt.mk ⟨"n1", 600⟩ [(1, PermState.idle)] PermState.idle
        0).localPerm = PermState.idle ∧
    ((create_perm
          (fun _ => Except.ok ⟨⟨Method.createPermission,
            MessageClass.successResponse⟩, none, none, none⟩) ⟨1, 9⟩
          (GateSt.mk ⟨"n1", 600⟩ [(1, PermState.idle)] PermState.idle
            0)).1.localPerm = PermState.permitted ↔
      (create_permissions ⟨"n1", 600⟩ [⟨1, 9⟩]
          ((fun _ => Except.ok ⟨⟨Method.createPermission,
            MessageClass.successResponse⟩, none, none, none⟩ :
              Nat → Except Error Message) 0)).2.1 = Except.ok ()) :=
  ⟨rfl,
    c6_permitted_iff_success
      (fun _ => Except.ok ⟨⟨Method.createPermission,
        MessageClass.successResponse⟩, none, none, none⟩) ⟨1, 9⟩
      (GateSt.mk ⟨"n1", 600⟩ [(1, PermState.idle)] PermState.idle 0) rfl⟩

end TurnRelay

namespace TurnRelay

/-! ## Lemmas about the permission gate -/

/-- create_permissions always records exactly its one CreatePermission
request, whatever the outcome. -/
theorem create_permissions_events (st : ConnState) (addrs : List SocketAddr)
    (outcome : Except Error Message) :
    (create_permissions st addrs outcome).2.2 =
      [OutEvent.transact (createPermissionMsg addrs st.nonce) false] := by
  cases outcome with
  | error e => rfl
  | ok m =>
    by_cases h1 : m.typ.msgClass = MessageClass.errorResponse
    · cases hec : m.errorCode with
      | none => simp [create_permissions, h1, hec]
      | some c =>
        by_cases h2 : c = CODE_STALE_NONCE
        · simp [create_permissions, h1, hec, h2]
        · simp [create_permissions, h1, hec, h2]
    · simp [create_permissions, h1]

/-- A non-Idle (hence Permitted) permission makes create_perm a no-op. -/
theorem create_perm_permitted (oracle : Nat → Except Error Message)
    (addr : SocketAddr) (st : GateSt)
    (h : st.localPerm = PermState.permitted) :
    create_perm oracle addr st = (st, Except.ok (), []) := by
  unfold create_perm
  rw [if_neg]
  rw [h]
  intro hc
  cases hc

/-- One attempt performs at most one CreatePermission transaction. -/
theorem create_perm_txCount_le (oracle : Nat → Except Error Message)
    (addr : SocketAddr) (st : GateSt) :
    (create_perm oracle addr st).1.txCount ≤ st.txCount + 1 := by
  unfold create_perm
  by_cases h : st.localPerm = PermState.idle
  · rw [if_pos h]
    cases hr : (create_permissions st.conn [addr] (oracle st.txCount)).2.1 <;>
      simp [hr]
  · rw [if_neg h]
    simp

/-- An Idle attempt records exactly one CreatePermission request carrying
the current nonce. -/
theorem create_perm_events_idle (oracle : Nat → Except Error Message)
    (addr : SocketAddr) (st : GateSt) (h : st.localPerm = PermState.idle) :
    (create_perm oracle addr st).2.2 =
      [OutEvent.transact (createPermissionMsg [addr] st.conn.nonce) false] := by
  unfold create_perm
  rw [if_pos h]
  cases hr : (create_permissions st.conn [addr] (oracle st.txCount)).2.1 with
  | error e => simp [hr, create_permissions_events]
  | ok u => simp [hr, create_permissions_events]

/-- Unfolding one iteration of the retry loop. -/
theorem permGateLoop_succ (oracle : Nat → Except Error Message)
    (addr : SocketAddr) (fuel : Nat) (st : GateSt) (r : Except Error Unit)
    (acc : List OutEvent) :
    permGateLoop oracle addr (fuel + 1) st r acc =
      (let step := create_perm oracle addr st
       match step.2.1 with
       | Except.error e =>
         if e = Error.errTryAgain then
           permGateLoop oracle addr fuel step.1 (Except.error e)
             (acc ++ step.2.2)
         else
           (step.1, Except.error e, acc ++ step.2.2)
       | Except.ok u =>
         permGateLoop oracle addr fuel step.1 (Except.ok u)
           (acc ++ step.2.2)) := rfl

/-- The loop performs at most fuel further transactions. -/
theorem permGateLoop_txCount_le (oracle : Nat → Except Error Message)
    (addr : SocketAddr) :
    ∀ (fuel : Nat) (st : GateSt) (r : Except Error Unit)
      (acc : List OutEvent),
      (permGateLoop oracle addr fuel st r acc).1.txCount ≤
        st.txCount + fuel := by
  intro fuel
  induction fuel with
  | zero =>
    intro st r acc
    simp [permGateLoop]
  | succ n ih =>
    intro st r acc
    rw [permGateLoop_succ]
    have hstep := create_perm_txCount_le oracle addr st
    cases hr : (create_perm oracle addr st).2.1 with
    | error e =>
      by_cases he : e = Error.errTryAgain
      · simp only [hr, he, eq_self_iff_true, if_true]
        have h2 := ih (create_perm oracle addr st).1
          (Except.error Error.errTryAgain)
          (acc ++ (create_perm oracle addr st).2.2)
        omega
      · simp only [hr, if_neg he]
        omega
    | ok u =>
      simp only [hr]
      have h2 := ih (create_perm oracle addr st).1 (Except.ok u)
        (acc ++ (create_perm oracle addr st).2.2)
      omega

/-- The loop only appends to the event accumulator. -/
theorem permGateLoop_events_prefix (oracle : Nat → Except Error Message)
    (addr : SocketAddr) :
    ∀ (fuel : Nat) (st : GateSt) (r : Except Error Unit)
      (acc : List OutEvent),
      ∃ t, (permGateLoop oracle addr fuel st r acc).2.2 = acc ++ t := by
  intro fuel
  induction fuel with
  | zero =>
    intro st r acc
    exact ⟨[], by simp [permGateLoop]⟩
  | succ n ih =>
    intro st r acc
    rw [permGateLoop_succ]
    cases hr : (create_perm oracle addr st).2.1 with
    | error e =>
      by_cases he : e = Error.errTryAgain
      · simp only [hr, he, if_pos rfl]
        obtain ⟨t, ht⟩ := ih (create_perm oracle addr st).1
          (Except.error Error.errTryAgain)
          (acc ++ (create_perm oracle addr st).2.2)
        subst he
        exact ⟨(create_perm oracle addr st).2.2 ++ t, by simp [ht]⟩
      · simp only [hr, if_neg he]
        exact ⟨(create_perm oracle addr st).2.2, rfl⟩
    | ok u =>
      simp only [hr]
      obtain ⟨t, ht⟩ := ih (create_perm oracle addr st).1 (Except.ok u)
        (acc ++ (create_perm oracle addr st).2.2)
      exact ⟨(create_perm oracle addr st).2.2 ++ t, by simp [ht]⟩

/-- Once the permission is Permitted the remaining iterations change
nothing and add no events. -/
theorem permGateLoop_permitted (oracle : Nat → Except Error Message)
    (addr : SocketAddr) :
    ∀ (fuel : Nat) (st : GateSt) (r : Except Error Unit)
      (acc : List OutEvent), st.localPerm = PermState.permitted →
      permGateLoop oracle addr (fuel + 1) st r acc =
        (st, Except.ok (), acc) := by
  intro fuel
  induction fuel with
  | zero =>
    intro st r acc h
    rw [permGateLoop_succ]
    simp [create_perm_permitted oracle addr st h, permGateLoop]
  | succ n ih =>
    intro st r acc h
    rw [permGateLoop_succ]
    simp only [create_perm_permitted oracle addr st h]
    rw [show acc ++ [] = acc from by simp]
    exact ih st (Except.ok ()) acc h

end TurnRelay

namespace TurnRelay

/-! ## Step lemmas for the retry loop -/

/-- Loop step when the attempt ends in ErrTryAgain: the loop continues. -/
theorem permGateLoop_succ_tryAgain (oracle : Nat → Except Error Message)
    (addr : SocketAddr) (fuel : Nat) (st : GateSt) (r : Except Error Unit)
    (acc : List OutEvent)
    (h : (create_perm oracle addr st).2.1 = Except.error Error.errTryAgain) :
    permGateLoop oracle addr (fuel + 1) st r acc =
      permGateLoop oracle addr fuel (create_perm oracle addr st).1
        (Except.error Error.errTryAgain)
        (acc ++ (create_perm oracle addr st).2.2) := by
  rw [permGateLoop_succ]
  simp only [h]
  rw [if_true]

/-- Loop step when the attempt ends in any other error: the loop breaks
with that error. -/
theorem permGateLoop_succ_fail (oracle : Nat → Except Error Message)
    (addr : SocketAddr) (fuel : Nat) (st : GateSt) (r : Except Error Unit)
    (acc : List OutEvent) (e : Error)
    (h : (create_perm oracle addr st).2.1 = Except.error e)
    (he : e ≠ Error.errTryAgain) :
    permGateLoop oracle addr (fuel + 1) st r acc =
      ((create_perm oracle addr st).1, Except.error e,
        acc ++ (create_perm oracle addr st).2.2) := by
  rw [permGateLoop_succ]
  simp only [h]
  rw [if_neg he]

/-- Loop step when the attempt succeeds: the loop continues with Ok. -/
theorem permGateLoop_succ_ok (oracle : Nat → Except Error Message)
    (addr : SocketAddr) (fuel : Nat) (st : GateSt) (r : Except Error Unit)
    (acc : List OutEvent) (u : Unit)
    (h : (create_perm oracle addr st).2.1 = Except.ok u) :
    permGateLoop oracle addr (fuel + 1) st r acc =
      permGateLoop oracle addr fuel (create_perm oracle addr st).1
        (Except.ok u) (acc ++ (create_perm oracle addr st).2.2) := by
  rw [permGateLoop_succ]
  simp only [h]

/-- An Idle attempt whose transaction ends in a 438 STALE_NONCE error
response: the nonce is taken from the response, the map entry deleted and
ErrTryAgain returned, after one CreatePermission carrying the old
nonce. -/
theorem create_perm_idle_stale (oracle : Nat → Except Error Message)
    (addr : SocketAddr) (st : GateSt) (m : Message) (N : String)
    (h : st.localPerm = PermState.idle)
    (ho : oracle st.txCount = Except.ok m) (hs : staleResponse m N) :
    create_perm oracle addr st =
      ({ st with
          conn := { st.conn with nonce := N }
          permMap := st.permMap.delete addr
          txCount := st.txCount + 1 },
        Except.error Error.errTryAgain,
        [OutEvent.transact (createPermissionMsg [addr] st.conn.nonce)
          false]) := by
  obtain ⟨h1, h2, h3⟩ := hs
  simp [create_perm, h, create_permissions, ho, h1, h2, h3,
    set_nonce_from_msg]

/-- An Idle attempt whose transaction ends in a success response: the
shared entry becomes Permitted, after one CreatePermission carrying the
current nonce. -/
theorem create_perm_idle_ok (oracle : Nat → Except Error Message)
    (addr : SocketAddr) (st : GateSt) (m : Message)
    (h : st.localPerm = PermState.idle)
    (ho : oracle st.txCount = Except.ok m)
    (hc : m.typ.msgClass ≠ MessageClass.errorResponse) :
    create_perm oracle addr st =
      ({ st with
          permMap := st.permMap.setState addr PermState.permitted
          localPerm := PermState.permitted
          txCount := st.txCount + 1 },
        Except.ok (),
        [OutEvent.transact (createPermissionMsg [addr] st.conn.nonce)
          false]) := by
  simp [create_perm, h, create_permissions, ho, hc]

/-- An Idle attempt whose transaction itself fails: the map entry is
deleted and the error returned, after one CreatePermission carrying the
current nonce. -/
theorem create_perm_idle_err (oracle : Nat → Except Error Message)
    (addr : SocketAddr) (st : GateSt) (e : Error)
    (h : st.localPerm = PermState.idle)
    (ho : oracle st.txCount = Except.error e) :
    create_perm oracle addr st =
      ({ st with
          permMap := st.permMap.delete addr
          txCount := st.txCount + 1 },
        Except.error e,
        [OutEvent.transact (createPermissionMsg [addr] st.conn.nonce)
          false]) := by
  simp [create_perm, h, create_permissions, ho]

end TurnRelay

namespace TurnRelay

/-! ## Theorems for claim C2 -/

/-- C2: the permission gate of send_to performs at most
MAX_RETRY_ATTEMPTS = 3 CreatePermission transactions; a 438 STALE_NONCE
error response makes it adopt the response's nonce and re-issue the
CreatePermission with that fresh nonce within the same send_to call; an
error other than ErrTryAgain aborts the loop after a single attempt and is
propagated; and with 438 on every attempt the loop stops after exactly
three attempts, each carrying the previously returned nonce, and ends in
ErrTryAgain. -/
theorem c2_stale_nonce_retry (oracle : Nat → Except Error Message)
    (addr : SocketAddr) (conn : ConnState) (permMap : PermissionMap) :
    (permGate oracle addr conn permMap).1.txCount ≤ MAX_RETRY_ATTEMPTS ∧
    (∀ m N, permMap.find addr = none → oracle 0 = Except.ok m →
      staleResponse m N →
      (permGate oracle addr conn permMap).2.2.take 2 =
        [OutEvent.transact (createPermissionMsg [addr] conn.nonce) false,
          OutEvent.transact (createPermissionMsg [addr] N) false]) ∧
    (∀ e, permMap.find addr = none → oracle 0 = Except.error e →
      e ≠ Error.errTryAgain →
      permGate oracle addr conn permMap =
        (⟨conn, (permMap.insert addr PermState.idle).delete addr,
            PermState.idle, 1⟩,
          Except.error e,
          [OutEvent.transact (createPermissionMsg [addr] conn.nonce)
            false])) ∧
    (∀ m0 m1 m2 N0 N1 N2, permMap.find addr = none →
      oracle 0 = Except.ok m0 → staleResponse m0 N0 →
      oracle 1 = Except.ok m1 → staleResponse m1 N1 →
      oracle 2 = Except.ok m2 → staleResponse m2 N2 →
      (permGate oracle addr conn permMap).2.1 =
          Except.error Error.errTryAgain ∧
        (permGate oracle addr conn permMap).1.txCount = 3 ∧
        (permGate oracle addr conn permMap).1.conn.nonce = N2 ∧
        (permGate oracle addr conn permMap).2.2 =
          [OutEvent.transact (createPermissionMsg [addr] conn.nonce) false,
            OutEvent.transact (createPermissionMsg [addr] N0) false,
            OutEvent.transact (createPermissionMsg [addr] N1) false]) := by
  refine ⟨?_, ?_, ?_, ?_⟩
  · unfold permGate
    cases hf : PermissionMap.find permMap addr with
    | some p =>
      simp only [hf]
      have h := permGateLoop_txCount_le oracle addr MAX_RETRY_ATTEMPTS
        ⟨conn, permMap, p, 0⟩ (Except.ok ()) []
      simpa using h
    | none =>
      simp only [hf]
      have h := permGateLoop_txCount_le oracle addr MAX_RETRY_ATTEMPTS
        ⟨conn, permMap.insert addr PermState.idle, PermState.idle, 0⟩
        (Except.ok ()) []
      simpa using h
  · intro m N hfind ho hs
    unfold permGate
    simp only [hfind]
    have hstep1 : create_perm oracle addr
        ⟨conn, permMap.insert addr PermState.idle, PermState.idle, 0⟩ =
        (⟨{ conn with nonce := N },
            (permMap.insert addr PermState.idle).delete addr,
            PermState.idle, 1⟩,
          Except.error Error.errTryAgain,
          [OutEvent.transact (createPermissionMsg [addr] conn.nonce)
            false]) :=
      create_perm_idle_stale oracle addr _ m N rfl ho hs
    rw [show MAX_RETRY_ATTEMPTS = 2 + 1 from rfl,
      permGateLoop_succ_tryAgain oracle addr 2 _ _ _ (by rw [hstep1]),
      hstep1]
    have hev2 : (create_perm oracle addr
        ⟨{ conn with nonce := N },
          (permMap.insert addr PermState.idle).delete addr,
          PermState.idle, 1⟩).2.2 =
        [OutEvent.transact (createPermissionMsg [addr] N) false] :=
      create_perm_events_idle oracle addr _ rfl
    cases hr2 : (create_perm oracle addr
        ⟨{ conn with nonce := N },
          (permMap.insert addr PermState.idle).delete addr,
          PermState.idle, 1⟩).2.1 with
    | error e2 =>
      by_cases he2 : e2 = Error.errTryAgain
      · subst he2
        rw [show (2 : Nat) = 1 + 1 from rfl,
          permGateLoop_succ_tryAgain oracle addr 1 _ _ _ hr2]
        obtain ⟨t, ht⟩ := permGateLoop_events_prefix oracle addr 1
          (create_perm oracle addr
            ⟨{ conn with nonce := N },
              (permMap.insert addr PermState.idle).delete addr,
              PermState.idle, 1⟩).1
          (Except.error Error.errTryAgain)
          (([] ++ [OutEvent.transact (createPermissionMsg [addr] conn.nonce)
              false]) ++
            (create_perm oracle addr
              ⟨{ conn with nonce := N },
                (permMap.insert addr PermState.idle).delete addr,
                PermState.idle, 1⟩).2.2)
        rw [ht, hev2]
        simp [List.take]
      · rw [show (2 : Nat) = 1 + 1 from rfl,
          permGateLoop_succ_fail oracle addr 1 _ _ _ e2 hr2 he2]
        rw [hev2]
        simp [List.take]
    | ok u =>
      rw [show (2 : Nat) = 1 + 1 from rfl,
        permGateLoop_succ_ok oracle addr 1 _ _ _ u hr2]
      obtain ⟨t, ht⟩ := permGateLoop_events_prefix oracle addr 1
        (create_perm oracle addr
          ⟨{ conn with nonce := N },
            (permMap.insert addr PermState.idle).delete addr,
            PermState.idle, 1⟩).1
        (Except.ok u)
        (([] ++ [OutEvent.transact (createPermissionMsg [addr] conn.nonce)
            false]) ++
          (create_perm oracle addr
            ⟨{ conn with nonce := N },
              (permMap.insert addr PermState.idle).delete addr,
              PermState.idle, 1⟩).2.2)
      rw [ht, hev2]
      simp [List.take]
  · intro e hfind ho he
    unfold permGate
    simp only [hfind]
    have hstep1 : create_perm oracle addr
        ⟨conn, permMap.insert addr PermState.idle, PermState.idle, 0⟩ =
        (⟨conn, (permMap.insert addr PermState.idle).delete addr,
            PermState.idle, 1⟩,
          Except.error e,
          [OutEvent.transact (createPermissionMsg [addr] conn.nonce)
            false]) :=
      create_perm_idle_err oracle addr _ e rfl ho
    rw [show MAX_RETRY_ATTEMPTS = 2 + 1 from rfl,
      permGateLoop_succ_fail oracle addr 2 _ _ _ e (by rw [hstep1]) he,
      hstep1]
    simp
  · intro m0 m1 m2 N0 N1 N2 hfind ho0 hs0 ho1 hs1 ho2 hs2
    unfold permGate
    simp only [hfind]
    have hstep1 : create_perm oracle addr
        ⟨conn, permMap.insert addr PermState.idle, PermState.idle, 0⟩ =
        (⟨{ conn with nonce := N0 },
            (permMap.insert addr PermState.idle).delete addr,
            PermState.idle, 1⟩,
          Except.error Error.errTryAgain,
          [OutEvent.transact (createPermissionMsg [addr] conn.nonce)
            false]) :=
      create_perm_idle_stale oracle addr _ m0 N0 rfl ho0 hs0
    have hstep2 : create_perm oracle addr
        ⟨{ conn with nonce := N0 },
          (permMap.insert addr PermState.idle).delete addr,
          PermState.idle, 1⟩ =
        (⟨{ conn with nonce := N1 },
            ((permMap.insert addr PermState.idle).delete addr).delete addr,
            PermState.idle, 2⟩,
          Except.error Error.errTryAgain,
          [OutEvent.transact (createPermissionMsg [addr] N0) false]) :=
      create_perm_idle_stale oracle addr _ m1 N1 rfl ho1 hs1
    have hstep3 : create_perm oracle addr
        ⟨{ conn with nonce := N1 },
          ((permMap.insert addr PermState.idle).delete addr).delete addr,
          PermState.idle, 2⟩ =
        (⟨{ conn with nonce := N2 },
            (((permMap.insert addr PermState.idle).delete addr).delete
              addr).delete addr,
            PermState.idle, 3⟩,
          Except.error Error.errTryAgain,
          [OutEvent.transact (createPermissionMsg [addr] N1) false]) :=
      create_perm_idle_stale oracle addr _ m2 N2 rfl ho2 hs2
    rw [show MAX_RETRY_ATTEMPTS = 2 + 1 from rfl,
      permGateLoop_succ_tryAgain oracle addr 2 _ _ _ (by rw [hstep1]),
      hstep1,
      show (2 : Nat) = 1 + 1 from rfl,
      permGateLoop_succ_tryAgain oracle addr 1 _ _ _ (by rw [hstep2]),
      hstep2,
      show (1 : Nat) = 0 + 1 from rfl,
      permGateLoop_succ_tryAgain oracle addr 0 _ _ _ (by rw [hstep3]),
      hstep3]
    simp [permGateLoop]

end TurnRelay

namespace TurnRelay

/-- Witness for c2_stale_nonce_retry: a server that answers the first
CreatePermission with 438 plus nonce "n2" and the second with success
makes the gate retry once, the retry carrying "n2". -/
theorem c2_stale_nonce_retry_witness :
    (PermissionMap.find ([] : PermissionMap) ⟨1, 9⟩ = none ∧
      (fun i => if i = 0 then
          Except.ok (⟨⟨Method.createPermission, MessageClass.errorResponse⟩,
            some 438, some "n2", none⟩ : Message)
        else
          Except.ok ⟨⟨Method.createPermission,
            MessageClass.successResponse⟩, none, none, none⟩ :
            Nat → Except Error Message) 0 =
        Except.ok ⟨⟨Method.createPermission, MessageClass.errorResponse⟩,
          some 438, some "n2", none⟩ ∧
      staleResponse ⟨⟨Method.createPermission, MessageClass.errorResponse⟩,
        some 438, some "n2", none⟩ "n2") ∧
    (permGate
        (fun i => if i = 0 then
          Except.ok (⟨⟨Method.createPermission, MessageClass.errorResponse⟩,
            some 438, some "n2", none⟩ : Message)
        else
          Except.ok ⟨⟨Method.createPermission,
            MessageClass.successResponse⟩, none, none, none⟩)
        ⟨1, 9⟩ ⟨"n1", 600⟩ []).2.2.take 2 =
      [OutEvent.transact (createPermissionMsg [⟨1, 9⟩] "n1") false,
        OutEvent.transact (createPermissionMsg [⟨1, 9⟩] "n2") false] :=
  ⟨⟨rfl, rfl, ⟨rfl, rfl, rfl⟩⟩,
    (c2_stale_nonce_retry
        (fun i => if i = 0 then
          Except.ok (⟨⟨Method.createPermission, MessageClass.errorResponse⟩,
            some 438, some "n2", none⟩ : Message)
        else
          Except.ok ⟨⟨Method.createPermission,
            MessageClass.successResponse⟩, none, none, none⟩)
        ⟨1, 9⟩ ⟨"n1", 600⟩ []).2.1
      ⟨⟨Method.createPermission, MessageClass.errorResponse⟩, some 438,
        some "n2", none⟩ "n2" rfl rfl ⟨rfl, rfl, rfl⟩⟩

end TurnRelay

namespace TurnRelay

/-! ## Theorems for claim C8 -/

/-- C8: permissions are keyed by remote IP only.  Any two addresses with
the same IP resolve to the same permission entry in every map; after a
send_to gate for p1 whose CreatePermission succeeds at the first attempt,
the entry found through p2 is the Permitted one installed for p1, and a
following send_to gate for p2 performs no CreatePermission at all — the
two calls together emit exactly one CreatePermission, issued by the first
caller that found the entry Idle. -/
theorem c8_permission_keyed_by_ip (oracle1 oracle2 : Nat → Except Error Message)
    (p1 p2 : SocketAddr) (conn : ConnState) (permMap : PermissionMap)
    (res : Message) (_hne : p1 ≠ p2) (hip : p1.ip = p2.ip)
    (hfind : permMap.find p1 = none)
    (hok : oracle1 0 = Except.ok res)
    (hclass : res.typ.msgClass ≠ MessageClass.errorResponse) :
    (∀ pm : PermissionMap, PermissionMap.find pm p1 =
      PermissionMap.find pm p2) ∧
    PermissionMap.find (permGate oracle1 p1 conn permMap).1.permMap p2 =
      some PermState.permitted ∧
    (permGateTwice oracle1 oracle2 p1 p2 conn permMap).2.1 =
      (Except.ok (), Except.ok ()) ∧
    (permGateTwice oracle1 oracle2 p1 p2 conn permMap).2.2 =
      [OutEvent.transact (createPermissionMsg [p1] conn.nonce) false] := by
  have hfindip : ∀ pm : PermissionMap,
      PermissionMap.find pm p1 = PermissionMap.find pm p2 := by
    intro pm
    induction pm with
    | nil => rfl
    | cons e rest ih => simp [PermissionMap.find, hip, ih]
  have hgate1 : permGate oracle1 p1 conn permMap =
      (⟨conn, (permMap.insert p1 PermState.idle).setState p1
          PermState.permitted, PermState.permitted, 1⟩,
        Except.ok (),
        [OutEvent.transact (createPermissionMsg [p1] conn.nonce) false]) := by
    unfold permGate
    simp only [hfind]
    have hstep1 : create_perm oracle1 p1
        ⟨conn, permMap.insert p1 PermState.idle, PermState.idle, 0⟩ =
        (⟨conn, (permMap.insert p1 PermState.idle).setState p1
            PermState.permitted, PermState.permitted, 1⟩,
          Except.ok (),
          [OutEvent.transact (createPermissionMsg [p1] conn.nonce)
            false]) :=
      create_perm_idle_ok oracle1 p1 _ res rfl hok hclass
    rw [show MAX_RETRY_ATTEMPTS = 2 + 1 from rfl,
      permGateLoop_succ_ok oracle1 p1 2 _ _ _ () (by rw [hstep1]),
      hstep1,
      show (2 : Nat) = 1 + 1 from rfl,
      permGateLoop_permitted oracle1 p1 1 _ _ _ rfl]
    simp
  have hfind2 : PermissionMap.find
      ((permMap.insert p1 PermState.idle).setState p1 PermState.permitted)
      p2 = some PermState.permitted := by
    unfold PermissionMap.insert PermissionMap.setState
    rw [if_pos (rfl : p1.ip = p1.ip)]
    unfold PermissionMap.find
    rw [if_pos hip]
  have hgate2 : permGate oracle2 p2 conn
      ((permMap.insert p1 PermState.idle).setState p1
        PermState.permitted) =
      (⟨conn, (permMap.insert p1 PermState.idle).setState p1
          PermState.permitted, PermState.permitted, 0⟩,
        Except.ok (), []) := by
    unfold permGate
    simp only [hfind2]
    rw [show MAX_RETRY_ATTEMPTS = 2 + 1 from rfl,
      permGateLoop_permitted oracle2 p2 2 _ _ _ rfl]
  refine ⟨hfindip, ?_, ?_, ?_⟩
  · rw [hgate1]
    exact hfind2
  · simp [permGateTwice, hgate1, hgate2]
  · simp [permGateTwice, hgate1, hgate2]

/-- Witness for c8_permission_keyed_by_ip: two ports of the same IP; the
pair of gates emits a single CreatePermission. -/
theorem c8_permission_keyed_by_ip_witness :
    ((⟨1, 9⟩ : SocketAddr) ≠ ⟨1, 10⟩ ∧
      (⟨1, 9⟩ : SocketAddr).ip = (⟨1, 10⟩ : SocketAddr).ip ∧
      PermissionMap.find ([] : PermissionMap) ⟨1, 9⟩ = none ∧
      (fun _ => Except.ok (⟨⟨Method.createPermission,
          MessageClass.successResponse⟩, none, none, none⟩ : Message) :
            Nat → Except Error Message) 0 =
        Except.ok ⟨⟨Method.createPermission, MessageClass.successResponse⟩,
          none, none, none⟩ ∧
      (⟨⟨Method.createPermission, MessageClass.successResponse⟩, none, none,
          none⟩ : Message).typ.msgClass ≠ MessageClass.errorResponse) ∧
    (permGateTwice
        (fun _ => Except.ok ⟨⟨Method.createPermission,
          MessageClass.successResponse⟩, none, none, none⟩)
        (fun _ => Except.ok ⟨⟨Method.createPermission,
          MessageClass.successResponse⟩, none, none, none⟩)
        ⟨1, 9⟩ ⟨1, 10⟩ ⟨"n1", 600⟩ []).2.2 =
      [OutEvent.transact (createPermissionMsg [⟨1, 9⟩] "n1") false] :=
  ⟨⟨by decide, rfl, rfl, rfl, by decide⟩,
    (c8_permission_keyed_by_ip
        (fun _ => Except.ok ⟨⟨Method.createPermission,
          MessageClass.successResponse⟩, none, none, none⟩)
        (fun _ => Except.ok ⟨⟨Method.createPermission,
          MessageClass.successResponse⟩, none, none, none⟩)
        ⟨1, 9⟩ ⟨1, 10⟩ ⟨"n1", 600⟩ []
        ⟨⟨Method.createPermission, MessageClass.successResponse⟩, none,
          none, none⟩
        (by decide) rfl rfl rfl (by decide)).2.2.2⟩

end TurnRelay
